import Mathlib

/-!
Verification development for the ShaderConverter live-preview core
(`src/components/ShaderPreview.tsx` and the preview variant embedded in
`src/App.tsx`).  The TypeScript/React source is shallowly embedded:
geometry dispatch, material binding, the error-boundary fault machine,
the per-frame uniform updates and the custom-model normalization are
translated into executable Lean definitions, and the specification's
claims are settled as theorems about those definitions.
-/

/-! ## Lighting mode (`type LightingMode = 'shader' | 'lit'`) -/

inductive LightingMode
  | shader
  | lit
deriving DecidableEq, Repr

/-- String form used when the lighting mode is interpolated into the
error-boundary reset key template literal. -/
def LightingMode.str : LightingMode → String
  | .shader => "shader"
  | .lit => "lit"

/-! ## Geometry of the drei primitives

Each constructor mirrors one drei primitive component together with the
`args` tuple the source passes to it (dimensions as rationals, segment
counts as naturals).  A `boxGeometry` with no args (the fallback meshes)
is `box 1 1 1`, the three.js defaults. -/

inductive Geometry
  | plane (w h : ℚ)
  | box (x y z : ℚ)
  | sphere (r : ℚ) (wseg hseg : ℕ)
  | torus (r tube : ℚ) (rseg tseg : ℕ)
  | knot (r tube : ℚ) (tseg rseg : ℕ)
  | cylinder (rtop rbot h : ℚ) (rseg : ℕ)
  | cone (r h : ℚ) (rseg : ℕ)
  | icosahedron (r : ℚ) (detail : ℕ)
  | octahedron (r : ℚ) (detail : ℕ)
  | dodecahedron (r : ℚ) (detail : ℕ)
  | tetrahedron (r : ℚ) (detail : ℕ)
  | ring (rinner router : ℚ) (tseg : ℕ)
deriving DecidableEq, Repr

/-- Mesh dispatch of `PrimitiveMeshShader` in `ShaderPreview.tsx`
(lines 143-156): a switch over the meshType string handling box, sphere,
torus and knot, with plane as the explicit `'plane'` case and the
`default` branch.  The same switch with the same args appears in
`PrimitiveMeshLit` (lines 163-175). -/
def resolveMeshPreview (meshType : String) : Geometry :=
  if meshType = "box" then .box (3/2) (3/2) (3/2)
  else if meshType = "sphere" then .sphere 1 64 64
  else if meshType = "torus" then .torus (4/5) (2/5) 64 64
  else if meshType = "knot" then .knot (3/5) (1/5) 128 32
  else .plane 2 2

/-- Mesh dispatch of the `PrimitiveMeshShader` variant embedded in
`src/App.tsx` (lines 302-328): the full twelve-kind switch, again with
plane as the `'plane'` case and the `default` branch. -/
def resolveMeshFull (meshType : String) : Geometry :=
  if meshType = "box" then .box (3/2) (3/2) (3/2)
  else if meshType = "sphere" then .sphere 1 64 64
  else if meshType = "torus" then .torus (4/5) (2/5) 64 64
  else if meshType = "knot" then .knot (3/5) (1/5) 128 32
  else if meshType = "cylinder" then .cylinder (4/5) (4/5) 2 32
  else if meshType = "cone" then .cone 1 2 32
  else if meshType = "icosahedron" then .icosahedron 1 0
  else if meshType = "octahedron" then .octahedron 1 0
  else if meshType = "dodecahedron" then .dodecahedron 1 0
  else if meshType = "tetrahedron" then .tetrahedron 1 0
  else if meshType = "ring" then .ring (1/2) 1 32
  else .plane 2 2

/-! ## Material binding (`PreviewMesh`) -/

/-- Fragment text of the built-in flat-color fallback program that
`PreviewMesh` substitutes for a falsy (empty) `fragmentShader` prop.
It paints every fragment magenta, `vec4(1.0, 0.0, 1.0, 1.0)`. -/
def flatColorFallbackFrag : String :=
  "\n        out vec4 fragColor;\n        void main() \x7b fragColor = vec4(1.0, 0.0, 1.0, 1.0); \x7d\n    "

/-- Default vertex program `GLSL3_VERTEX` used when no `vertexShader`
prop is supplied. -/
def GLSL3_VERTEX : String :=
  "\nout vec2 vUv;\nout vec3 vNormal;\nout vec3 vViewPosition;\n\nvoid main() \x7b\n  vUv = uv;\n  vNormal = normalize(normalMatrix * normal);\n  vec4 mvPosition = modelViewMatrix * vec4(position, 1.0);\n  vViewPosition = -mvPosition.xyz;\n  gl_Position = projectionMatrix * mvPosition;\n\x7d\n"

/-- Source line `const safeFragmentShader = fragmentShader || ...`:
a JavaScript `||` on a string is the fallback exactly when the string is
empty. -/
def safeFragmentShader (fragmentShader : String) : String :=
  if fragmentShader = "" then flatColorFallbackFrag else fragmentShader

/-- The data of a `THREE.ShaderMaterial` as configured by both
`CustomModelShader` and `PrimitiveMeshShader`: the two program texts.
(`side: DoubleSide` and `glslVersion: GLSL3` are fixed constants in both
call sites and carry no claim-relevant variation.) -/
structure ShaderMat where
  vertexShader : String
  fragmentShader : String
deriving DecidableEq, Repr

/-- A visual produced by the preview tree: a primitive or custom model
carrying a shader material, their reference-lit counterparts, or a
plain `meshBasicMaterial` mesh used by the boundary fallbacks. -/
inductive Visual
  | primitive (g : Geometry) (m : ShaderMat)
  | custom (url : String) (m : ShaderMat)
  | litPrimitive (g : Geometry)
  | litCustom (url : String)
  | fallbackMesh (g : Geometry) (color : ℚ × ℚ × ℚ)
deriving DecidableEq, Repr

/-- Fragment program text of the shader material bound inside a visual,
when the visual carries one. -/
def Visual.fragOf : Visual → Option String
  | .primitive _ m => some m.fragmentShader
  | .custom _ m => some m.fragmentShader
  | _ => none

/-- Source expression `meshType.startsWith('custom:')`, embedded as the
prefix test on the underlying character list (the extensional meaning
of `String.startsWith`). -/
def startsWithCustom (meshType : String) : Bool :=
  "custom:".data.isPrefixOf meshType.data

/-- Source line `const url = isCustom ? meshType.replace('custom:', '') : ''`:
a JavaScript string `replace` rewrites the first occurrence, which under
`isCustom` is the leading `custom:` (7 characters). -/
def stripCustom (meshType : String) : String :=
  meshType.drop 7

/-- Component `PreviewMesh` of `ShaderPreview.tsx` (lines 185-207):
substitutes the flat-color fallback for an empty fragment source, then
routes on the `custom:` prefix and the lighting mode. -/
def previewMesh (fragmentShader vertexShader meshType : String)
    (mode : LightingMode) : Visual :=
  let safeFrag := safeFragmentShader fragmentShader
  let isCustom := startsWithCustom meshType
  if mode = .lit then
    if isCustom then .litCustom (stripCustom meshType)
    else .litPrimitive (resolveMeshPreview meshType)
  else
    if isCustom then .custom (stripCustom meshType) ⟨vertexShader, safeFrag⟩
    else .primitive (resolveMeshPreview meshType) ⟨vertexShader, safeFrag⟩

/-! ## Fault isolation boundary (`ErrorBoundary`, lines 209-231) -/

/-- Kind of exception reaching the boundary from its children: a
compile exception thrown while binding the shader material, or a
runtime render exception.  `getDerivedStateFromError` treats both
alike. -/
inductive ErrKind
  | compileError
  | renderError
deriving DecidableEq, Repr

/-- Reset key the `ShaderPreview` component passes to the boundary
(line 302): the template literal over the mesh type and
the lighting mode. -/
def resetKey (meshType : String) (mode : LightingMode) : String :=
  meshType ++ "-" ++ mode.str

/-- State relevant to the fault isolation boundary: the current props
feeding the reset key, and the boundary's `hasError` flag. -/
structure Boundary where
  mesh : String
  light : LightingMode
  hasError : Bool
deriving DecidableEq, Repr

/-- Events driving the boundary: a child throws (of either kind), or
the props update with a new mesh selection and lighting mode. -/
inductive BEvent
  | childError (k : ErrKind)
  | update (mesh : String) (light : LightingMode)
deriving DecidableEq, Repr

/-- Transition function of the boundary.  `childError` is
`getDerivedStateFromError`, setting `hasError`.  `update` is a props
change followed by `componentDidUpdate`, which clears `hasError`
exactly when the reset key changed while an error was latched. -/
def stepB (b : Boundary) : BEvent → Boundary
  | .childError _ => { b with hasError := true }
  | .update m l =>
      if resetKey b.mesh b.light ≠ resetKey m l ∧ b.hasError then
        { mesh := m, light := l, hasError := false }
      else
        { b with mesh := m, light := l }

/-- Render method of the boundary: the supplied fallback while
`hasError` is latched, the child tree otherwise. -/
def boundaryRender (hasError : Bool) (fallback child : Visual) : Visual :=
  if hasError then fallback else child

/-- Fallback element `ShaderPreview` supplies to the boundary
(line 303): a mesh with a default `boxGeometry` (three.js default
dimensions 1 x 1 x 1) and a magenta `meshBasicMaterial`. -/
def faultFallback : Visual :=
  .fallbackMesh (.box 1 1 1) (1, 0, 1)

/-- Source line `meshType={props.meshType || 'plane'}`: the prop is
optional, and an absent or empty meshType string is falsy. -/
def meshTypeOrPlane : Option String → String
  | none => "plane"
  | some s => if s = "" then "plane" else s

/-- Output of the `ShaderPreview` scene for given props and boundary
error flag: the boundary renders its fault fallback or the
`PreviewMesh` subtree (with the default vertex program). -/
def shaderPreviewRender (fragmentShader : String) (meshType : Option String)
    (mode : LightingMode) (hasError : Bool) : Visual :=
  boundaryRender hasError faultFallback
    (previewMesh fragmentShader GLSL3_VERTEX (meshTypeOrPlane meshType) mode)

/-! ## Render session: clock and per-frame uniform updates

The `Canvas` owns one three.js clock (`state.clock`), created at session
start and never reset by child remounts.  `PrimitiveMeshShader` and
`CustomModelShader` each create uniforms `uTime: 0` and
`uResolution: new Vector2()` (zero vector) on mount, and their
`useFrame` callback writes `uniforms.uTime.value =
state.clock.getElapsedTime()` once per rendered frame — and nothing
else.  Changing the mesh selection or the lighting mode remounts the
shader component, recreating the uniforms at their initial values,
while the session clock keeps running.  Clock values are modelled as
naturals (elapsed milliseconds); each frame advances the clock by the
host's nonnegative inter-frame delta. -/

inductive SessionEvent
  | frame (d : ℕ)
  | setMesh (m : String)
  | setLight (l : LightingMode)
deriving DecidableEq, Repr

structure Session where
  clock : ℕ
  mesh : String
  light : LightingMode
  uTime : ℕ
  uResolution : ℚ × ℚ
deriving DecidableEq, Repr

/-- Session at creation: clock at zero, the App's initial mesh `'box'`,
the default `'shader'` lighting mode, uniforms at their initial values
`uTime: 0`, `uResolution: (0, 0)`. -/
def Session.init : Session :=
  { clock := 0, mesh := "box", light := .shader, uTime := 0, uResolution := (0, 0) }

/-- One step of the session.  A frame advances the clock and, when a
shader material is mounted (shader lighting mode), pushes the clock
value into `uTime`; in lit mode no shader material exists and no
uniform is written.  A mesh or lighting change remounts the preview
component: the new material's uniforms start at their initial values,
and the session clock is untouched. -/
def stepSession (s : Session) : SessionEvent → Session
  | .frame d =>
      if s.light = .shader then
        { s with clock := s.clock + d, uTime := s.clock + d }
      else
        { s with clock := s.clock + d }
  | .setMesh m => { s with mesh := m, uTime := 0, uResolution := (0, 0) }
  | .setLight l => { s with light := l, uTime := 0, uResolution := (0, 0) }

/-- Run a session through a list of events. -/
def runSession (s : Session) : List SessionEvent → Session
  | [] => s
  | e :: es => runSession (stepSession s e) es

/-- The sequence of `elapsedTime` values pushed into the active
material's uniforms, one per rendered frame on which a shader material
is mounted. -/
def pushedTimes (s : Session) : List SessionEvent → List ℕ
  | [] => []
  | .frame d :: es =>
      if s.light = .shader then
        (s.clock + d) :: pushedTimes (stepSession s (.frame d)) es
      else
        pushedTimes (stepSession s (.frame d)) es
  | e :: es => pushedTimes (stepSession s e) es

/-! ## Custom model normalization (`CustomModelShader`, lines 52-74)

The loaded scene is modelled by its root transform (a position and the
uniform scale that `scale.setScalar` writes) together with the fixed
axis-aligned bounding box of its geometry in root-local coordinates.
`Box3.setFromObject` then yields the local box mapped through the root
transform. -/

structure Vec3 where
  x : ℚ
  y : ℚ
  z : ℚ
deriving DecidableEq, Repr

def Vec3.add (a b : Vec3) : Vec3 := ⟨a.x + b.x, a.y + b.y, a.z + b.z⟩

def Vec3.sub (a b : Vec3) : Vec3 := ⟨a.x - b.x, a.y - b.y, a.z - b.z⟩

def Vec3.smul (k : ℚ) (a : Vec3) : Vec3 := ⟨k * a.x, k * a.y, k * a.z⟩

/-- Axis-aligned bounding box, `THREE.Box3`. -/
structure Box3 where
  min : Vec3
  max : Vec3
deriving DecidableEq, Repr

/-- Componentwise well-formedness of a bounding box. -/
def Box3.wf (b : Box3) : Prop :=
  b.min.x ≤ b.max.x ∧ b.min.y ≤ b.max.y ∧ b.min.z ≤ b.max.z

instance (b : Box3) : Decidable b.wf := by
  unfold Box3.wf; infer_instance

/-- Method `Box3.getSize`: componentwise `max - min`. -/
def Box3.size (b : Box3) : Vec3 := b.max.sub b.min

/-- Method `Box3.getCenter`: componentwise midpoint of min and max. -/
def Box3.center (b : Box3) : Vec3 :=
  ⟨(b.min.x + b.max.x) / 2, (b.min.y + b.max.y) / 2, (b.min.z + b.max.z) / 2⟩

/-- Translate a box by a vector. -/
def Box3.translate (v : Vec3) (b : Box3) : Box3 :=
  ⟨b.min.add v, b.max.add v⟩

/-- Image of a box under uniform scaling about the origin, as
recomputed by `Box3.setFromObject`: each corner is scaled and the
componentwise min/max retaken (so the result is a box for any sign of
the factor). -/
def Box3.scaleBy (k : ℚ) (b : Box3) : Box3 :=
  ⟨⟨Min.min (k * b.min.x) (k * b.max.x),
    Min.min (k * b.min.y) (k * b.max.y),
    Min.min (k * b.min.z) (k * b.max.z)⟩,
   ⟨Max.max (k * b.min.x) (k * b.max.x),
    Max.max (k * b.min.y) (k * b.max.y),
    Max.max (k * b.min.z) (k * b.max.z)⟩⟩

/-- Root transform plus local geometry bounds of a loaded scene. -/
structure SceneNode where
  position : Vec3
  scale : ℚ
  localBox : Box3
deriving DecidableEq, Repr

/-- World-space bounding box of the scene, `new
THREE.Box3().setFromObject(s)`: the local geometry bounds scaled by the
root scale and translated by the root position. -/
def SceneNode.worldBox (s : SceneNode) : Box3 :=
  (Box3.scaleBy s.scale s.localBox).translate s.position

/-- Source expression `Math.max(size.x, size.y, size.z)`. -/
def maxDimOf (v : Vec3) : ℚ := Max.max v.x (Max.max v.y v.z)

/-- A freshly loaded glTF scene: the loader's synthesized root carries
an identity transform (unit scale); its clone preserves that. -/
def loadedScene (position : Vec3) (localBox : Box3) : SceneNode :=
  { position := position, scale := 1, localBox := localBox }

/-- Normalization block of `CustomModelShader` (and `CustomModelLit`):
measure the bounding box, set the root scale to `2.0 / (maxDim || 1)`,
re-measure, and subtract the new center from the root position. -/
def normalizeScene (s0 : SceneNode) : SceneNode :=
  let box := s0.worldBox
  let size := box.size
  let maxDim := maxDimOf size
  let scale := 2 / (if maxDim = 0 then 1 else maxDim)
  let s1 : SceneNode := { s0 with scale := scale }
  let box2 := s1.worldBox
  let center := box2.center
  { s1 with position := s1.position.sub center }

/-! ## Resource loader (`useLoader(GLTFLoader, url)`)

Modelled from the spec: the implementation of the URL-keyed,
request-coalescing model cache behind `useLoader` is not part of this
repository's sources (only its call sites in `CustomModelShader` and
`CustomModelLit` are), so `loadModel` is modelled from the spec's words:
a map from URL to a shared pending-result handle or a completed model;
a hit on a completed entry returns the cached model without fetching; a
hit on a pending entry attaches to the same handle without fetching; a
miss issues one fetch and installs a pending handle. -/

inductive CacheEntry
  | pending (handle : ℕ)
  | done (model : ℕ)
deriving DecidableEq, Repr

structure LoaderState where
  cache : List (String × CacheEntry)
  nextHandle : ℕ
  fetchLog : List String
deriving DecidableEq, Repr

/-- Loader state before any load. -/
def LoaderState.empty : LoaderState :=
  { cache := [], nextHandle := 0, fetchLog := [] }

/-- Cache lookup by URL. -/
def lookupCache (cache : List (String × CacheEntry)) (url : String) :
    Option CacheEntry :=
  match cache with
  | [] => none
  | (u, e) :: rest => if u = url then some e else lookupCache rest url

/-- What a call to `loadModel` observes: a cache hit on a completed
model, attachment to an in-flight request's handle, or the start of a
fresh fetch with a new handle. -/
inductive LoadOutcome
  | cached (model : ℕ)
  | attached (handle : ℕ)
  | started (handle : ℕ)
deriving DecidableEq, Repr

/-- Modelled from the spec: `loadModel(url)` against the current cache.
Only the miss branch appends to the fetch log. -/
def loadModel (st : LoaderState) (url : String) : LoadOutcome × LoaderState :=
  match lookupCache st.cache url with
  | some (.done m) => (.cached m, st)
  | some (.pending h) => (.attached h, st)
  | none =>
      (.started st.nextHandle,
       { cache := (url, .pending st.nextHandle) :: st.cache,
         nextHandle := st.nextHandle + 1,
         fetchLog := url :: st.fetchLog })

/-- Modelled from the spec: completion of the fetch for `url` resolves
its shared pending entry to the loaded model, cached indefinitely. -/
def completeLoad (st : LoaderState) (url : String) (m : ℕ) : LoaderState :=
  { st with
    cache := st.cache.map (fun e => if e.1 = url then (url, .done m) else e) }

/-- Number of underlying fetches issued so far for `url`. -/
def fetchCount (st : LoaderState) (url : String) : ℕ :=
  st.fetchLog.count url

/-- Look of a fallback visual relevant to telling the two fallbacks
apart: the geometry drawn and the flat color painted on it. -/
structure FallbackLook where
  geom : Geometry
  color : ℚ × ℚ × ℚ
deriving DecidableEq, Repr

/-- Look of the fault boundary fallback: default box, magenta
`meshBasicMaterial`. -/
def faultLook : FallbackLook :=
  ⟨.box 1 1 1, (1, 0, 1)⟩

/-- Look of the Material Binder's empty-input fallback on a primitive
mesh selection: the selected primitive geometry, painted flat magenta
by the substituted fragment program `vec4(1.0, 0.0, 1.0, 1.0)`. -/
def emptyLook (meshType : String) : FallbackLook :=
  ⟨resolveMeshPreview meshType, (1, 0, 1)⟩

/-- Two fallback looks can be told apart when they differ in color or
in shape. -/
def distinguishable (a b : FallbackLook) : Prop :=
  a.color ≠ b.color ∨ a.geom ≠ b.geom

/-! ## Helper lemmas -/

theorem string_data_inj {s t : String} (h : s.data = t.data) : s = t := by
  cases s; cases t; simp_all

/-- The composite reset key is injective: the two lighting-mode strings
differ in their last character, so equal keys force equal mesh strings
and equal modes. -/
theorem resetKey_inj {m₁ m₂ : String} {l₁ l₂ : LightingMode}
    (h : resetKey m₁ l₁ = resetKey m₂ l₂) : m₁ = m₂ ∧ l₁ = l₂ := by
  have hd := congrArg String.data h
  cases l₁ <;> cases l₂ <;>
    simp only [resetKey, LightingMode.str, String.data_append] at hd
  · exact ⟨string_data_inj (List.append_cancel_right (List.append_cancel_right hd)), rfl⟩
  · exfalso
    have h1 := congrArg List.getLast? hd
    rw [List.getLast?_append_of_ne_nil _ (by decide),
        List.getLast?_append_of_ne_nil _ (by decide)] at h1
    simp at h1
  · exfalso
    have h1 := congrArg List.getLast? hd
    rw [List.getLast?_append_of_ne_nil _ (by decide),
        List.getLast?_append_of_ne_nil _ (by decide)] at h1
    simp at h1
  · exact ⟨string_data_inj (List.append_cancel_right (List.append_cancel_right hd)), rfl⟩

/-! ## Claim theorems -/

/-- C1: The fault isolation boundary is a two-state machine over
Clean/Faulted: a compile exception from the material binder or a
runtime render exception moves Clean to Faulted; while Faulted the
fixed fault fallback is rendered; a change to the mesh descriptor or
the lighting mode (the composite reset key, which does not mention the
source text) moves Faulted back to Clean; and a further child error —
such as re-binding the same broken source — sets Faulted again. -/
theorem c1_fault_boundary_machine (b : Boundary) (k k' : ErrKind)
    (m : String) (l : LightingMode) (child : Visual)
    (hchange : m ≠ b.mesh ∨ l ≠ b.light) :
    ((stepB b (.childError k)).hasError = true)
    ∧ (b.hasError = true →
        stepB b (.update m l) = { mesh := m, light := l, hasError := false })
    ∧ (b.hasError = true →
        boundaryRender b.hasError faultFallback child = faultFallback)
    ∧ ((stepB (stepB b (.update m l)) (.childError k')).hasError = true) := by
  have hkey : resetKey b.mesh b.light ≠ resetKey m l := by
    intro he
    rcases resetKey_inj he with ⟨hm, hl⟩
    rcases hchange with hne | hne
    · exact hne hm.symm
    · exact hne hl.symm
  refine ⟨rfl, ?_, ?_, rfl⟩
  · intro hb
    simp [stepB, hkey, hb]
  · intro hb
    simp [boundaryRender, hb]

/-- C1 witness: a faulted boundary on the box mesh in shader mode is
cleared by switching the mesh to sphere, and a fresh child error after
the reset latches the fault again. -/
theorem c1_fault_boundary_machine_witness :
    (("sphere" : String) ≠ "box" ∨ LightingMode.shader ≠ LightingMode.shader)
    ∧ (((stepB ⟨"box", .shader, true⟩ (.childError .compileError)).hasError = true)
       ∧ ((⟨"box", .shader, true⟩ : Boundary).hasError = true →
           stepB ⟨"box", .shader, true⟩ (.update "sphere" .shader) =
             { mesh := "sphere", light := .shader, hasError := false })
       ∧ ((⟨"box", .shader, true⟩ : Boundary).hasError = true →
           boundaryRender (⟨"box", .shader, true⟩ : Boundary).hasError faultFallback
             (Visual.litPrimitive (.plane 2 2)) = faultFallback)
       ∧ ((stepB (stepB ⟨"box", .shader, true⟩ (.update "sphere" .shader))
             (.childError .renderError)).hasError = true)) :=
  ⟨Or.inl (by decide),
   c1_fault_boundary_machine ⟨"box", .shader, true⟩ .compileError .renderError
     "sphere" .shader (Visual.litPrimitive (.plane 2 2)) (Or.inl (by decide))⟩

/-- C2: For the empty fragment source the binder substitutes the
built-in flat-color program before anything is compiled, so the
compiler never sees the empty text; the shader material bound for the
empty source carries exactly the flat-color fallback fragment, and a
clean session renders that flat-color visual — never the fault
fallback — for every mesh selection. -/
theorem c2_empty_source_flat_fallback (m : String) :
    safeFragmentShader "" = flatColorFallbackFrag
    ∧ (previewMesh "" GLSL3_VERTEX m .shader).fragOf = some flatColorFallbackFrag
    ∧ shaderPreviewRender "" (some m) .shader false =
        previewMesh "" GLSL3_VERTEX (meshTypeOrPlane (some m)) .shader
    ∧ shaderPreviewRender "" (some m) .shader false ≠ faultFallback := by
  refine ⟨rfl, ?_, rfl, ?_⟩
  · cases hc : startsWithCustom m <;>
      simp [previewMesh, hc, Visual.fragOf, safeFragmentShader]
  · cases hc : startsWithCustom (meshTypeOrPlane (some m)) <;>
      simp [shaderPreviewRender, boundaryRender, previewMesh, hc, faultFallback]

/-- C3: Evaluation of the two primitive dispatches.  The twelve-kind
switch of the `PrimitiveMeshShader` variant embedded in `src/App.tsx`
maps every offered kind to its canonical literal geometry — exactly as
the claim states — but the dispatch in the live
`src/components/ShaderPreview.tsx` handles only five kinds, so there
the kind `cylinder` (like cone, icosahedron, octahedron, dodecahedron,
tetrahedron and ring) falls through to the default 2 x 2 plane. -/
theorem c3_primitive_dispatch_eval :
    resolveMeshFull "plane" = .plane 2 2
    ∧ resolveMeshFull "box" = .box (3/2) (3/2) (3/2)
    ∧ resolveMeshFull "sphere" = .sphere 1 64 64
    ∧ resolveMeshFull "torus" = .torus (4/5) (2/5) 64 64
    ∧ resolveMeshFull "knot" = .knot (3/5) (1/5) 128 32
    ∧ resolveMeshFull "cylinder" = .cylinder (4/5) (4/5) 2 32
    ∧ resolveMeshFull "cone" = .cone 1 2 32
    ∧ resolveMeshFull "icosahedron" = .icosahedron 1 0
    ∧ resolveMeshFull "octahedron" = .octahedron 1 0
    ∧ resolveMeshFull "dodecahedron" = .dodecahedron 1 0
    ∧ resolveMeshFull "tetrahedron" = .tetrahedron 1 0
    ∧ resolveMeshFull "ring" = .ring (1/2) 1 32
    ∧ resolveMeshPreview "cylinder" = .plane 2 2 :=
  ⟨rfl, rfl, rfl, rfl, rfl, rfl, rfl, rfl, rfl, rfl, rfl, rfl, rfl⟩

/-- C7: For a non-empty fragment source the bound material's fragment
text is the author's source verbatim: the `||` substitution is the
identity on non-empty strings, and no other transformation touches the
fragment text on either the primitive or the custom-model path (the
preview tree never invokes the transpiler service). -/
theorem c7_verbatim_fragment (s v m : String) (hs : s ≠ "") :
    safeFragmentShader s = s
    ∧ (previewMesh s v m .shader).fragOf = some s := by
  have h1 : safeFragmentShader s = s := by simp [safeFragmentShader, hs]
  refine ⟨h1, ?_⟩
  cases hc : startsWithCustom m <;>
    simp [previewMesh, hc, Visual.fragOf, h1]

/-- C7 witness at a concrete non-empty source. -/
theorem c7_verbatim_fragment_witness :
    ("void main() \x7b \x7d" : String) ≠ ""
    ∧ (safeFragmentShader "void main() \x7b \x7d" = "void main() \x7b \x7d"
       ∧ (previewMesh "void main() \x7b \x7d" GLSL3_VERTEX "plane" .shader).fragOf =
           some "void main() \x7b \x7d") :=
  ⟨by decide, c7_verbatim_fragment "void main() \x7b \x7d" GLSL3_VERTEX "plane" (by decide)⟩

/-- C9: A mesh-type string that is neither one of the kinds handled by
the `ShaderPreview.tsx` dispatch switch nor prefixed with `custom:`
resolves, totally and without any error path, to the default plane
geometry. -/
theorem c9_unknown_mesh_defaults_to_plane (f v s : String)
    (h1 : s ∉ (["plane", "box", "sphere", "torus", "knot"] : List String))
    (h2 : startsWithCustom s = false) :
    resolveMeshPreview s = .plane 2 2
    ∧ previewMesh f v s .shader =
        .primitive (.plane 2 2) ⟨v, safeFragmentShader f⟩ := by
  have hb : s ≠ "box" := fun h => h1 (by simp [h])
  have hsp : s ≠ "sphere" := fun h => h1 (by simp [h])
  have ht : s ≠ "torus" := fun h => h1 (by simp [h])
  have hk : s ≠ "knot" := fun h => h1 (by simp [h])
  have hr : resolveMeshPreview s = .plane 2 2 := by
    simp [resolveMeshPreview, hb, hsp, ht, hk]
  exact ⟨hr, by simp [previewMesh, h2, hr]⟩

/-- C9 witness at the concrete unhandled kind `cylinder` (offered by
the sidebar but absent from the live dispatch). -/
theorem c9_unknown_mesh_defaults_to_plane_witness :
    (("cylinder" : String) ∉ (["plane", "box", "sphere", "torus", "knot"] : List String)
      ∧ startsWithCustom "cylinder" = false)
    ∧ (resolveMeshPreview "cylinder" = .plane 2 2
       ∧ previewMesh "x" "y" "cylinder" .shader =
           .primitive (.plane 2 2) ⟨"y", safeFragmentShader "x"⟩) :=
  ⟨⟨by decide, by decide⟩,
   c9_unknown_mesh_defaults_to_plane "x" "y" "cylinder" (by decide) (by decide)⟩

/-- In any trace of session events, the `elapsedTime` values actually
pushed per frame form a non-decreasing chain, and every pushed value is
at least the clock value at the trace's start. -/
theorem pushedTimes_chain_aux (es : List SessionEvent) :
    ∀ s : Session, List.Chain' (· ≤ ·) (pushedTimes s es)
      ∧ ∀ t ∈ pushedTimes s es, s.clock ≤ t := by
  induction es with
  | nil => intro s; simp [pushedTimes]
  | cons e es ih =>
    intro s
    cases e with
    | frame d =>
      have ihs := ih (stepSession s (.frame d))
      have hclock : (stepSession s (.frame d)).clock = s.clock + d := by
        by_cases hl : s.light = .shader <;> simp [stepSession, hl]
      by_cases hl : s.light = .shader
      · refine ⟨?_, ?_⟩
        · simp only [pushedTimes, if_pos hl]
          refine List.chain'_cons'.mpr ⟨?_, ihs.1⟩
          intro y hy
          have hm := ihs.2 y (List.mem_of_mem_head? hy)
          rw [hclock] at hm
          exact hm
        · intro t ht
          simp only [pushedTimes, if_pos hl, List.mem_cons] at ht
          rcases ht with h | h
          · omega
          · have hm := ihs.2 t h
            rw [hclock] at hm
            omega
      · refine ⟨?_, ?_⟩
        · simp only [pushedTimes, if_neg hl]
          exact ihs.1
        · intro t ht
          simp only [pushedTimes, if_neg hl] at ht
          have hm := ihs.2 t ht
          rw [hclock] at hm
          omega
    | setMesh m =>
      have ihs := ih (stepSession s (.setMesh m))
      refine ⟨?_, ?_⟩
      · simpa only [pushedTimes] using ihs.1
      · intro t ht
        simp only [pushedTimes] at ht
        have hm := ihs.2 t ht
        simpa [stepSession] using hm
    | setLight l =>
      have ihs := ih (stepSession s (.setLight l))
      refine ⟨?_, ?_⟩
      · simpa only [pushedTimes] using ihs.1
      · intro t ht
        simp only [pushedTimes] at ht
        have hm := ihs.2 t ht
        simpa [stepSession] using hm

/-- C4: Within one session, the `elapsedTime` values pushed into the
active material's uniforms, one per rendered frame, are monotonically
non-decreasing across any sequence of mesh or lighting-mode changes;
those change events never touch the session clock, and only a freshly
created session has the clock (and `uTime`) at 0. -/
theorem c4_elapsed_time_monotone :
    Session.init.clock = 0
    ∧ Session.init.uTime = 0
    ∧ (∀ es : List SessionEvent,
        List.Pairwise (· ≤ ·) (pushedTimes Session.init es))
    ∧ (∀ (s : Session) (m : String) (l : LightingMode),
        (stepSession s (.setMesh m)).clock = s.clock
        ∧ (stepSession s (.setLight l)).clock = s.clock) := by
  refine ⟨rfl, rfl, ?_, ?_⟩
  · intro es
    exact List.chain'_iff_pairwise.mp (pushedTimes_chain_aux es Session.init).1
  · intro s m l
    exact ⟨rfl, rfl⟩

/-- C10: The per-frame tick writes only `uTime`; the `uResolution`
uniform keeps its initial value `(0, 0)` through every event of the
session — no operation of the preview core ever updates it. -/
theorem c10_uResolution_constant :
    Session.init.uResolution = (0, 0)
    ∧ (∀ (s : Session) (d : ℕ),
        (stepSession s (.frame d)).uResolution = s.uResolution)
    ∧ (∀ es : List SessionEvent,
        (runSession Session.init es).uResolution = (0, 0)) := by
  have aux : ∀ (es : List SessionEvent) (s : Session),
      s.uResolution = (0, 0) → (runSession s es).uResolution = (0, 0) := by
    intro es
    induction es with
    | nil => intro s h; simpa [runSession] using h
    | cons e es ih =>
      intro s h
      rw [runSession]
      apply ih
      cases e with
      | frame d => by_cases hl : s.light = .shader <;> simp [stepSession, hl, h]
      | setMesh m => simp [stepSession]
      | setLight l => simp [stepSession]
  refine ⟨rfl, ?_, ?_⟩
  · intro s d
    by_cases hl : s.light = .shader <;> simp [stepSession, hl]
  · intro es
    exact aux es Session.init rfl

/-- C8: A first load of a URL issues one fetch and installs a shared
pending handle; a second call while that fetch is in flight attaches to
the same handle and leaves the state (hence the fetch log) unchanged;
and after completion a repeat call returns the cached model, again
without fetching — so the same URL is fetched exactly once. -/
theorem c8_load_cache_coalesce (st : LoaderState) (url : String) (mId : ℕ)
    (hmiss : lookupCache st.cache url = none) :
    ((loadModel st url).1 = .started st.nextHandle)
    ∧ fetchCount (loadModel st url).2 url = fetchCount st url + 1
    ∧ ((loadModel (loadModel st url).2 url).1 = .attached st.nextHandle)
    ∧ ((loadModel (loadModel st url).2 url).2 = (loadModel st url).2)
    ∧ ((loadModel (completeLoad (loadModel st url).2 url mId) url).1 = .cached mId)
    ∧ ((loadModel (completeLoad (loadModel st url).2 url mId) url).2 =
        completeLoad (loadModel st url).2 url mId)
    ∧ fetchCount (completeLoad (loadModel st url).2 url mId) url =
        fetchCount st url + 1 := by
  have h1 : loadModel st url =
      (.started st.nextHandle,
       { cache := (url, .pending st.nextHandle) :: st.cache,
         nextHandle := st.nextHandle + 1,
         fetchLog := url :: st.fetchLog }) := by
    simp [loadModel, hmiss]
  rw [h1]
  have h2 : completeLoad
      { cache := (url, CacheEntry.pending st.nextHandle) :: st.cache,
        nextHandle := st.nextHandle + 1, fetchLog := url :: st.fetchLog } url mId =
      { cache := (url, CacheEntry.done mId) ::
          st.cache.map (fun e => if e.1 = url then (url, CacheEntry.done mId) else e),
        nextHandle := st.nextHandle + 1, fetchLog := url :: st.fetchLog } := by
    simp [completeLoad]
  rw [h2]
  refine ⟨rfl, ?_, ?_, ?_, ?_, ?_, ?_⟩
  · simp [fetchCount, List.count_cons]
  · simp [loadModel, lookupCache]
  · simp [loadModel, lookupCache]
  · simp [loadModel, lookupCache]
  · simp [loadModel, lookupCache]
  · simp [fetchCount, List.count_cons]

/-- C8 witness: loading a concrete URL against the empty cache. -/
theorem c8_load_cache_coalesce_witness :
    lookupCache LoaderState.empty.cache "model.glb" = none
    ∧ (((loadModel LoaderState.empty "model.glb").1 =
          .started LoaderState.empty.nextHandle)
       ∧ fetchCount (loadModel LoaderState.empty "model.glb").2 "model.glb" =
           fetchCount LoaderState.empty "model.glb" + 1
       ∧ ((loadModel (loadModel LoaderState.empty "model.glb").2 "model.glb").1 =
           .attached LoaderState.empty.nextHandle)
       ∧ ((loadModel (loadModel LoaderState.empty "model.glb").2 "model.glb").2 =
           (loadModel LoaderState.empty "model.glb").2)
       ∧ ((loadModel (completeLoad (loadModel LoaderState.empty "model.glb").2
             "model.glb" 7) "model.glb").1 = .cached 7)
       ∧ ((loadModel (completeLoad (loadModel LoaderState.empty "model.glb").2
             "model.glb" 7) "model.glb").2 =
           completeLoad (loadModel LoaderState.empty "model.glb").2 "model.glb" 7)
       ∧ fetchCount (completeLoad (loadModel LoaderState.empty "model.glb").2
             "model.glb" 7) "model.glb" =
           fetchCount LoaderState.empty "model.glb" + 1) :=
  ⟨rfl, c8_load_cache_coalesce LoaderState.empty "model.glb" 7 rfl⟩

/-- Translating a box does not change its size. -/
theorem size_translate (v : Vec3) (b : Box3) : (Box3.translate v b).size = b.size := by
  simp only [Box3.translate, Box3.size, Vec3.add, Vec3.sub, Vec3.mk.injEq]
  refine ⟨by ring, by ring, by ring⟩

/-- Translating a box translates its center. -/
theorem center_translate (v : Vec3) (b : Box3) :
    (Box3.translate v b).center = b.center.add v := by
  simp only [Box3.translate, Box3.center, Vec3.add, Vec3.mk.injEq]
  refine ⟨by ring, by ring, by ring⟩

/-- Scaling a well-formed box by a nonnegative factor scales both
corners directly. -/
theorem scaleBy_of_nonneg {k : ℚ} (hk : 0 ≤ k) {b : Box3} (hwf : b.wf) :
    Box3.scaleBy k b = ⟨Vec3.smul k b.min, Vec3.smul k b.max⟩ := by
  obtain ⟨h1, h2, h3⟩ := hwf
  have m1 := mul_le_mul_of_nonneg_left h1 hk
  have m2 := mul_le_mul_of_nonneg_left h2 hk
  have m3 := mul_le_mul_of_nonneg_left h3 hk
  unfold Box3.scaleBy
  rw [min_eq_left m1, min_eq_left m2, min_eq_left m3,
      max_eq_right m1, max_eq_right m2, max_eq_right m3]
  rfl

/-- Scaling a well-formed box by 1 is the identity. -/
theorem scaleBy_one {b : Box3} (hwf : b.wf) : Box3.scaleBy 1 b = b := by
  rw [scaleBy_of_nonneg zero_le_one hwf]
  simp [Vec3.smul]

/-- The longest dimension scales with a nonnegative uniform factor. -/
theorem maxDim_smul {k : ℚ} (hk : 0 ≤ k) (v : Vec3) :
    maxDimOf (Vec3.smul k v) = k * maxDimOf v := by
  unfold maxDimOf Vec3.smul
  rw [← mul_max_of_nonneg v.y v.z hk, ← mul_max_of_nonneg v.x (Max.max v.y v.z) hk]

/-- A well-formed box has a nonnegative longest dimension. -/
theorem wf_size_nonneg {b : Box3} (hwf : b.wf) : 0 ≤ maxDimOf b.size := by
  obtain ⟨h1, h2, h3⟩ := hwf
  unfold maxDimOf Box3.size Vec3.sub
  have hx : (0 : ℚ) ≤ b.max.x - b.min.x := by linarith
  exact le_trans hx (le_max_left _ _)

/-- The normalization scale factor is nonnegative for a well-formed
local box. -/
theorem normalizeScale_nonneg {lb : Box3} (hwf : lb.wf) :
    0 ≤ (2 : ℚ) / (if maxDimOf lb.size = 0 then 1 else maxDimOf lb.size) := by
  have hd0 := wf_size_nonneg hwf
  split_ifs with h0
  · norm_num
  · exact le_of_lt (div_pos two_pos (lt_of_le_of_ne hd0 (Ne.symm h0)))

/-- Structure of the normalized scene's world bounding box: its size is
the local size scaled by `2 / (maxDim || 1)`, and its center is the
origin. -/
theorem normalize_worldBox (p : Vec3) (lb : Box3) (hwf : lb.wf) :
    (normalizeScene (loadedScene p lb)).worldBox.size =
        Vec3.smul (2 / (if maxDimOf lb.size = 0 then 1 else maxDimOf lb.size)) lb.size
    ∧ (normalizeScene (loadedScene p lb)).worldBox.center = ⟨0, 0, 0⟩ := by
  have hk := normalizeScale_nonneg hwf
  have hbox0 : (loadedScene p lb).worldBox = Box3.translate p lb := by
    simp only [loadedScene, SceneNode.worldBox]
    rw [scaleBy_one hwf]
  have hnorm : normalizeScene (loadedScene p lb) =
      { position := p.sub ((Box3.translate p (Box3.scaleBy
            (2 / (if maxDimOf lb.size = 0 then 1 else maxDimOf lb.size)) lb)).center),
        scale := 2 / (if maxDimOf lb.size = 0 then 1 else maxDimOf lb.size),
        localBox := lb } := by
    simp only [normalizeScene, loadedScene, SceneNode.worldBox]
    rw [scaleBy_one hwf, size_translate]
  rw [hnorm]
  rw [scaleBy_of_nonneg hk hwf]
  simp only [SceneNode.worldBox]
  rw [scaleBy_of_nonneg hk hwf]
  rw [size_translate, center_translate, center_translate]
  constructor
  · simp only [Box3.size, Vec3.smul, Vec3.sub, Vec3.mk.injEq]
    refine ⟨by ring, by ring, by ring⟩
  · simp only [Box3.center, Vec3.smul, Vec3.add, Vec3.sub, Vec3.mk.injEq]
    refine ⟨by ring, by ring, by ring⟩

/-- C5: For every loaded scene with a non-degenerate bounding box, the
normalization block scales uniformly so that the longest world
bounding-box dimension becomes exactly the 2-unit reference size, and
translates the scene so that the bounding-box center sits at the
origin. -/
theorem c5_custom_model_normalization (p : Vec3) (lb : Box3)
    (hwf : lb.wf) (hpos : 0 < maxDimOf lb.size) :
    maxDimOf (normalizeScene (loadedScene p lb)).worldBox.size = 2
    ∧ (normalizeScene (loadedScene p lb)).worldBox.center = ⟨0, 0, 0⟩ := by
  obtain ⟨hsize, hcenter⟩ := normalize_worldBox p lb hwf
  refine ⟨?_, hcenter⟩
  rw [hsize, maxDim_smul (normalizeScale_nonneg hwf)]
  rw [if_neg (ne_of_gt hpos)]
  exact div_mul_cancel₀ 2 (ne_of_gt hpos)

/-- C5 witness: a concrete loaded scene with bounding box
`[0,1] x [0,2] x [0,4]` at root position `(1,2,3)` normalizes to
longest dimension 2 with center at the origin. -/
theorem c5_custom_model_normalization_witness :
    ((⟨⟨0, 0, 0⟩, ⟨1, 2, 4⟩⟩ : Box3).wf
      ∧ 0 < maxDimOf (⟨⟨0, 0, 0⟩, ⟨1, 2, 4⟩⟩ : Box3).size)
    ∧ (maxDimOf (normalizeScene (loadedScene ⟨1, 2, 3⟩
          ⟨⟨0, 0, 0⟩, ⟨1, 2, 4⟩⟩)).worldBox.size = 2
       ∧ (normalizeScene (loadedScene ⟨1, 2, 3⟩
          ⟨⟨0, 0, 0⟩, ⟨1, 2, 4⟩⟩)).worldBox.center = ⟨0, 0, 0⟩) :=
  ⟨⟨by norm_num [Box3.wf],
    by norm_num [maxDimOf, Box3.size, Vec3.sub, max_def]⟩,
   c5_custom_model_normalization ⟨1, 2, 3⟩ ⟨⟨0, 0, 0⟩, ⟨1, 2, 4⟩⟩
     (by norm_num [Box3.wf])
     (by norm_num [maxDimOf, Box3.size, Vec3.sub, max_def])⟩

/-- C6: The empty-input flat-color fallback can be told apart from the
fault fallback for every mesh selection — by shape, not by color: both
are magenta, but no primitive kind resolves to the fault fallback's
default 1 x 1 x 1 box, and a normalized custom model's longest
bounding-box dimension (2 for a non-degenerate model, 0 for a
degenerate one) never matches the fault box's edge length 1. -/
theorem c6_fallbacks_distinguishable :
    (∀ m : String, distinguishable (emptyLook m) faultLook)
    ∧ (∀ (p : Vec3) (lb : Box3), lb.wf →
        maxDimOf (normalizeScene (loadedScene p lb)).worldBox.size ≠ 1) := by
  constructor
  · intro m
    right
    show resolveMeshPreview m ≠ Geometry.box 1 1 1
    unfold resolveMeshPreview
    split_ifs <;> simp <;> norm_num
  · intro p lb hwf
    obtain ⟨hsize, _⟩ := normalize_worldBox p lb hwf
    rw [hsize, maxDim_smul (normalizeScale_nonneg hwf)]
    by_cases h0 : maxDimOf lb.size = 0
    · rw [if_pos h0, h0]
      norm_num
    · rw [if_neg h0, div_mul_cancel₀ 2 h0]
      norm_num

/-- C6 witness: the box selection against the fault fallback, and a
concrete unit-cube model. -/
theorem c6_fallbacks_distinguishable_witness :
    (⟨⟨0, 0, 0⟩, ⟨1, 1, 1⟩⟩ : Box3).wf
    ∧ distinguishable (emptyLook "box") faultLook
    ∧ maxDimOf (normalizeScene (loadedScene ⟨0, 0, 0⟩
        ⟨⟨0, 0, 0⟩, ⟨1, 1, 1⟩⟩)).worldBox.size ≠ 1 :=
  ⟨by norm_num [Box3.wf],
   c6_fallbacks_distinguishable.1 "box",
   c6_fallbacks_distinguishable.2 ⟨0, 0, 0⟩ ⟨⟨0, 0, 0⟩, ⟨1, 1, 1⟩⟩
     (by norm_num [Box3.wf])⟩
